import Mathlib

/-!
Verification of the RADIUS splash-page authentication server
(`src/server.js`, "RADIUS-Meraki Authentication Server", v3.1.0).

The development shallowly embeds:

* the environment-derived configuration constants (server.js lines 26-33),
* the per-attempt RADIUS exchange implemented by `authenticateWithRadius`
  (lines 205-336) as an explicit state machine over the events that can be
  delivered to it (socket error, inbound datagram, send callback, timer
  firing), with the JavaScript promise's settle-once semantics made explicit,
* the `POST /auth/radius` HTTP handler (lines 127-202).

The npm `radius` library is an external dependency (its source is not part
of this repository).  `server.js` invokes it as `radius.decode({ packet:
message, secret: RADIUS_SECRET })`: the library receives only the raw
datagram and the shared secret - in particular neither the outstanding
request's identifier nor the request authenticator is passed to it, and
the library's separate `radius.verify_response` entry point (the one that
takes the original request in order to check the response authenticator)
is never called.  Accordingly an inbound datagram event carries the
library's parse result for that datagram: either a structured packet
(code name, identifier, the packet's 16-byte authenticator field, and the
decoded attribute map) or a parse failure (a thrown exception), and the
model of the `message` listener consumes exactly the fields `server.js`
itself reads (`response.code` and `response.attributes[..]`).
-/

namespace RadiusSplash

/-! ## JavaScript-truthiness helpers -/

/-- JavaScript `x || d` for an optionally-present string environment value
or object field: `undefined` and the empty string are falsy. -/
def jsOrString (x : Option String) (d : String) : String :=
  match x with
  | some s => if s = "" then d else s
  | none => d

/-- JavaScript `!x` for an optionally-present string field: absent
(`undefined`) and the empty string are falsy. -/
def jsFalsyStr (x : Option String) : Bool :=
  match x with
  | some s => s = ""
  | none => true

/-- JavaScript strict equality `x === y` between a string-or-null value and
a string: `null === s` is false. -/
def jsStrictEqOptStr (x : Option String) (y : String) : Bool :=
  match x with
  | some v => v = y
  | none => false

/-- Simplified model of JavaScript `parseInt` on decimal strings (the only
use in `server.js` is `parseInt(process.env.RADIUS_PORT || '1812')`):
parse the leading run of decimal digits; `none` models `NaN`. -/
def jsParseInt (s : String) : Option Nat :=
  let digits := s.toList.takeWhile Char.isDigit
  if digits.isEmpty then none
  else some (digits.foldl (fun n c => 10 * n + (c.toNat - 48)) 0)

/-! ## Configuration (server.js lines 26-33) -/

/-- The process environment variables consulted by `server.js`.  A field is
`none` when the variable is unset. -/
structure Env where
  RADIUS_HOST : Option String := none
  RADIUS_PORT : Option String := none
  RADIUS_SECRET : Option String := none
  ALLOWED_FILTER_ID : Option String := none
  ACCESS_DENIED_MESSAGE : Option String := none
  ACCESS_GRANTED_MESSAGE : Option String := none
deriving DecidableEq, Repr

/-- The module-level configuration constants computed once when the process
starts (server.js lines 26-33).  Note that `ACCESS_GRANTED_MESSAGE` is NOT
among them: that variable is read from the environment inside the request
handler (line 160). -/
structure Config where
  host : String
  port : Option Nat
  secret : String
  allowedFilterId : String
  accessDeniedMessage : String
deriving DecidableEq, Repr

/-- Evaluation of the module-level `const` declarations of server.js lines
26-33 against a process environment. -/
def startupConfig (env : Env) : Config :=
  { host := jsOrString env.RADIUS_HOST "192.168.1.108"
    port := jsParseInt (jsOrString env.RADIUS_PORT "1812")
    secret := jsOrString env.RADIUS_SECRET "testing123"
    allowedFilterId := jsOrString env.ALLOWED_FILTER_ID "StaffPolicy"
    accessDeniedMessage := jsOrString env.ACCESS_DENIED_MESSAGE "You don\x27t belong to this SSID" }

/-- The hard-coded per-request timeout passed to `setTimeout`
(server.js line 307). -/
def RADIUS_TIMEOUT_MS : Nat := 10000

/-! ## The RADIUS exchange (`authenticateWithRadius`, server.js 205-336) -/

/-- The structured result `radius.decode({ packet, secret })` returns for a
successfully parsed datagram: the packet code name (server.js compares it
with the string literal `Access-Accept`), the packet's identifier byte, the
packet's 16-byte (response-)authenticator field, and the decoded attribute
map.  The attribute map is modelled as an association list in which a later
entry shadows an earlier one with the same name (a JavaScript object built
by successive writes: last write wins). -/
structure LibDecoded where
  code : String
  identifier : Nat
  authenticator : List Nat
  attributes : List (String × String)
deriving DecidableEq, Repr

/-- Last-write-wins lookup in the decoded attribute map. -/
def lookupLast (attrs : List (String × String)) (k : String) : Option String :=
  attrs.foldl (fun acc p => if p.1 = k then some p.2 else acc) none

/-- The Filter-Id extraction of server.js lines 248-250:
`response.attributes && response.attributes[..] ? value : null`, so an
absent attribute and a falsy (empty-string) attribute both give `null`. -/
def radiusFilterId (attrs : List (String × String)) : Option String :=
  match lookupLast attrs "Filter-Id" with
  | some v => if v = "" then none else some v
  | none => none

/-- A settlement of the promise created by `authenticateWithRadius`:
`resolved` models `resolve({ success, filterId?, message? })` and
`rejected` models `reject(new Error(message))`. -/
inductive Settle where
  | resolved (success : Bool) (filterId : Option String) (message : Option String)
  | rejected (message : String)
deriving DecidableEq, Repr

/-- The mutable state of one `authenticateWithRadius` attempt:
the closure variables `clientClosed` and `timeoutId` (as `timerPending`),
whether the one `client.send` callback is still outstanding, the identifier
chosen for the Access-Request, the promise's settlement (`none` while
pending; a settled promise ignores further `resolve`/`reject` calls), and
resource accounting (sockets opened by `dgram.createSocket`, datagrams
sent, whether the socket is currently open). -/
structure AttemptState where
  requestIdentifier : Nat
  clientClosed : Bool
  timerPending : Bool
  sendCallbackPending : Bool
  socketsOpened : Nat
  sendCount : Nat
  socketOpen : Bool
  settled : Option Settle
deriving DecidableEq, Repr

/-- A `resolve`/`reject` call on the attempt's promise: the first
settlement wins, later calls are ignored (JavaScript promise semantics). -/
def settleWith (s : AttemptState) (v : Settle) : AttemptState :=
  if s.settled.isSome then s else { s with settled := some v }

/-- `closeSafely` (server.js lines 324-334): guarded by `clientClosed`,
sets the flag and closes the socket. -/
def closeSafely (s : AttemptState) : AttemptState :=
  if s.clientClosed then s else { s with clientClosed := true, socketOpen := false }

/-- `clearTimeoutSafely` (server.js lines 316-321): cancels the pending
timer, if any. -/
def clearTimeoutSafely (s : AttemptState) : AttemptState :=
  { s with timerPending := false }

/-- The asynchronous events that can be delivered to one attempt:
a socket `error` event, an inbound datagram (carried as the `radius`
library's parse result for its bytes), the `client.send` completion
callback (with `some errMessage` on failure), and the 10-second timer
firing. -/
inductive Event where
  | socketError (message : String)
  | datagram (d : Except String LibDecoded)
  | sendCallback (sendError : Option String)
  | timeoutFire
deriving Repr

/-- The `client.on(..)` message listener (server.js lines 223-264):
return immediately if the client is closed; otherwise cancel the timer,
and on a successful decode close the socket and resolve by packet code
(`Access-Accept` resolves success with the extracted Filter-Id, anything
else resolves failure), while a decode exception closes the socket and
rejects. -/
def handleMessage (s : AttemptState) (d : Except String LibDecoded) : AttemptState :=
  if s.clientClosed then s
  else
    let s1 := clearTimeoutSafely s
    match d with
    | .ok resp =>
        let s2 := closeSafely s1
        if resp.code = "Access-Accept" then
          settleWith s2 (.resolved true (radiusFilterId resp.attributes) none)
        else
          settleWith s2 (.resolved false none
            (some "Authentication failed. Please check your credentials."))
    | .error m =>
        let s2 := closeSafely s1
        settleWith s2 (.rejected ("Failed to process authentication response: " ++ m))

/-- The socket `error` listener (server.js lines 213-220): guarded by
`clientClosed`; cancels the timer, closes, rejects. -/
def handleSocketError (s : AttemptState) (m : String) : AttemptState :=
  if s.clientClosed then s
  else settleWith (closeSafely (clearTimeoutSafely s)) (.rejected ("Network error: " ++ m))

/-- The `client.send` completion callback (server.js lines 286-300): on a
send error it cancels the timer, closes and rejects; on success it only
logs.  Note the callback body itself has no `clientClosed` guard. -/
def handleSendCallback (s : AttemptState) (err : Option String) : AttemptState :=
  let s1 := { s with sendCallbackPending := false }
  match err with
  | some m =>
      settleWith (closeSafely (clearTimeoutSafely s1))
        (.rejected ("Failed to send authentication request: " ++ m))
  | none => s1

/-- The `setTimeout` callback (server.js lines 303-307): fires only while
the timer is pending; closes the socket and resolves
`{ success: false, message: 'Authentication server timed out' }`. -/
def handleTimeout (s : AttemptState) : AttemptState :=
  if s.timerPending then
    settleWith (closeSafely { s with timerPending := false })
      (.resolved false none (some "Authentication server timed out"))
  else s

/-- One asynchronous step of an attempt. -/
def step (s : AttemptState) (e : Event) : AttemptState :=
  match e with
  | .socketError m => handleSocketError s m
  | .datagram d => handleMessage s d
  | .sendCallback err => handleSendCallback s err
  | .timeoutFire => handleTimeout s

/-- The synchronous body of `authenticateWithRadius` (server.js 205-313):
create the UDP socket, pick an identifier, then inside the `try` block
encode and send the packet and arm the 10-second timer; if `radius.encode`
throws (`encodeError = some m`) the `catch` closes the socket and rejects
without ever sending. -/
def setup (ident : Nat) (encodeError : Option String) : AttemptState :=
  let s0 : AttemptState :=
    { requestIdentifier := ident, clientClosed := false, timerPending := false
      sendCallbackPending := false, socketsOpened := 1, sendCount := 0
      socketOpen := true, settled := none }
  match encodeError with
  | none => { s0 with sendCount := 1, sendCallbackPending := true, timerPending := true }
  | some m => settleWith (closeSafely s0) (.rejected ("Failed to create authentication request: " ++ m))

/-- A complete attempt: the synchronous setup followed by a sequence of
delivered asynchronous events. -/
def runAttempt (ident : Nat) (encodeError : Option String) (evs : List Event) : AttemptState :=
  evs.foldl step (setup ident encodeError)

/-- A state is reachable when some attempt produces it. -/
def Reachable (s : AttemptState) : Prop :=
  ∃ ident encodeError evs, runAttempt ident encodeError evs = s

/-- The per-attempt safety invariant: whenever the promise has settled, the
`clientClosed` flag is set and the timer is no longer pending; and whenever
`clientClosed` is set, the UDP socket has been closed. -/
def AttemptInv (s : AttemptState) : Prop :=
  (s.settled.isSome = true → s.clientClosed = true) ∧
  (s.settled.isSome = true → s.timerPending = false) ∧
  (s.clientClosed = true → s.socketOpen = false)

/-! ## The HTTP facade (`POST /auth/radius`, server.js 127-202) -/

/-- The fields of `req.body` the handler reads (the passthrough Meraki
fields are unused by the authentication logic). -/
structure ReqBody where
  username : Option String := none
  password : Option String := none
deriving DecidableEq, Repr

/-- The JSON response of the handler: HTTP status plus the body fields.
`filterId`/`validation` are `none` when the field is absent from the JSON
(an inner `none` in `filterId` is an explicit JSON `null`). -/
structure HttpResponse where
  status : Nat
  success : Bool
  message : String
  filterId : Option (Option String) := none
  validation : Option (String × String) := none
deriving DecidableEq, Repr

/-- Translation of a settled `authenticateWithRadius` promise into the HTTP
response (server.js lines 153-197).  A resolved success consults the
Filter-Id: strict equality with `ALLOWED_FILTER_ID` gives 200 (reading
`ACCESS_GRANTED_MESSAGE` from the environment at request time, line 160),
anything else gives 403 with the deny message; a resolved failure gives
401; a rejected promise is thrown by `await` and caught, giving 500. -/
def facadeRespond (cfg : Config) (reqEnv : Env) (outcome : Settle) : HttpResponse :=
  match outcome with
  | .resolved success filterId message =>
      if success then
        if jsStrictEqOptStr filterId cfg.allowedFilterId then
          { status := 200, success := true, message := "Authentication successful"
            filterId := some filterId
            validation := some ("success",
              jsOrString reqEnv.ACCESS_GRANTED_MESSAGE "Access granted - Account verified") }
        else
          { status := 403, success := false, message := cfg.accessDeniedMessage
            filterId := some filterId
            validation := some ("error", "Access denied - " ++ cfg.accessDeniedMessage) }
      else
        { status := 401, success := false, message := jsOrString message "Authentication failed" }
  | .rejected _ =>
      { status := 500, success := false, message := "Server error during authentication" }

/-- The `POST /auth/radius` handler (server.js lines 127-202): reject
missing credentials with 400 before any RADIUS work, otherwise await the
attempt and translate its settlement.  The boolean records whether
`authenticateWithRadius` was invoked at all. -/
def handleAuthRadius (cfg : Config) (reqEnv : Env) (body : ReqBody) (outcome : Settle) :
    HttpResponse × Bool :=
  if jsFalsyStr body.username || jsFalsyStr body.password then
    ({ status := 400, success := false, message := "Username and password are required" }, false)
  else
    (facadeRespond cfg reqEnv outcome, true)

/-! ## Basic lemmas about the attempt state machine -/

@[simp] theorem clearTimeoutSafely_proj (s : AttemptState) :
    (clearTimeoutSafely s).requestIdentifier = s.requestIdentifier ∧
    (clearTimeoutSafely s).clientClosed = s.clientClosed ∧
    (clearTimeoutSafely s).timerPending = false ∧
    (clearTimeoutSafely s).sendCallbackPending = s.sendCallbackPending ∧
    (clearTimeoutSafely s).socketsOpened = s.socketsOpened ∧
    (clearTimeoutSafely s).sendCount = s.sendCount ∧
    (clearTimeoutSafely s).socketOpen = s.socketOpen ∧
    (clearTimeoutSafely s).settled = s.settled :=
  ⟨rfl, rfl, rfl, rfl, rfl, rfl, rfl, rfl⟩

@[simp] theorem closeSafely_proj (s : AttemptState) :
    (closeSafely s).requestIdentifier = s.requestIdentifier ∧
    (closeSafely s).clientClosed = true ∧
    (closeSafely s).timerPending = s.timerPending ∧
    (closeSafely s).sendCallbackPending = s.sendCallbackPending ∧
    (closeSafely s).socketsOpened = s.socketsOpened ∧
    (closeSafely s).sendCount = s.sendCount ∧
    (closeSafely s).socketOpen = (s.clientClosed && s.socketOpen) ∧
    (closeSafely s).settled = s.settled := by
  unfold closeSafely
  by_cases h : s.clientClosed = true <;> simp [h]

@[simp] theorem settleWith_proj (s : AttemptState) (v : Settle) :
    (settleWith s v).requestIdentifier = s.requestIdentifier ∧
    (settleWith s v).clientClosed = s.clientClosed ∧
    (settleWith s v).timerPending = s.timerPending ∧
    (settleWith s v).sendCallbackPending = s.sendCallbackPending ∧
    (settleWith s v).socketsOpened = s.socketsOpened ∧
    (settleWith s v).sendCount = s.sendCount ∧
    (settleWith s v).socketOpen = s.socketOpen := by
  unfold settleWith
  by_cases h : s.settled.isSome = true <;> simp [h]

theorem settleWith_settled (s : AttemptState) (v : Settle) :
    (settleWith s v).settled = if s.settled.isSome = true then s.settled else some v := by
  unfold settleWith
  by_cases h : s.settled.isSome = true <;> simp [h]

@[simp] theorem settleWith_settled_of_none (s : AttemptState) (v : Settle)
    (h : s.settled = none) : (settleWith s v).settled = some v := by
  simp [settleWith_settled, h]

@[simp] theorem settleWith_settled_of_some (s : AttemptState) (v : Settle) (o : Settle)
    (h : s.settled = some o) : (settleWith s v).settled = some o := by
  simp [settleWith_settled, h]

@[simp] theorem settleWith_settled_isSome (s : AttemptState) (v : Settle) :
    (settleWith s v).settled.isSome = true := by
  rw [settleWith_settled]
  by_cases h : s.settled.isSome = true <;> simp [h]

theorem step_preserves_resources (s : AttemptState) (e : Event) :
    (step s e).socketsOpened = s.socketsOpened ∧
    (step s e).sendCount = s.sendCount ∧
    (step s e).requestIdentifier = s.requestIdentifier := by
  cases e with
  | socketError m =>
      simp only [step, handleSocketError]
      by_cases hc : s.clientClosed = true <;> simp [hc]
  | datagram d =>
      simp only [step, handleMessage]
      by_cases hc : s.clientClosed = true
      · simp [hc]
      · cases d with
        | ok r =>
            by_cases ha : r.code = "Access-Accept" <;> simp [hc, ha]
        | error m => simp [hc]
  | sendCallback err =>
      cases err with
      | none => exact ⟨rfl, rfl, rfl⟩
      | some m => simp [step, handleSendCallback]
  | timeoutFire =>
      simp only [step, handleTimeout]
      by_cases ht : s.timerPending = true <;> simp [ht]

theorem closed_and_open_eq_false (s : AttemptState) (h : AttemptInv s) :
    (s.clientClosed && s.socketOpen) = false := by
  by_cases hc : s.clientClosed = true
  · simp [hc, h.2.2 hc]
  · rw [Bool.not_eq_true] at hc
    simp [hc]

theorem attemptInv_setup (i : Nat) (enc : Option String) : AttemptInv (setup i enc) := by
  cases enc <;> simp [AttemptInv, setup, settleWith, closeSafely]

theorem attemptInv_step (s : AttemptState) (e : Event) (h : AttemptInv s) :
    AttemptInv (step s e) := by
  have hco := closed_and_open_eq_false s h
  cases e with
  | socketError m =>
      by_cases hc : s.clientClosed = true
      · simpa [step, handleSocketError, hc] using h
      · rw [Bool.not_eq_true] at hc
        simp [AttemptInv, step, handleSocketError, hc]
  | datagram d =>
      by_cases hc : s.clientClosed = true
      · simpa [step, handleMessage, hc] using h
      · cases d with
        | ok r =>
            rw [Bool.not_eq_true] at hc
            by_cases ha : r.code = "Access-Accept" <;>
              simp [AttemptInv, step, handleMessage, hc, ha]
        | error m =>
            rw [Bool.not_eq_true] at hc
            simp [AttemptInv, step, handleMessage, hc]
  | sendCallback err =>
      cases err with
      | none =>
          exact h
      | some m =>
          simp only [AttemptInv, step, handleSendCallback]
          simp [hco]
  | timeoutFire =>
      by_cases ht : s.timerPending = true
      · simp only [AttemptInv, step, handleTimeout, ht, if_true]
        simp [hco]
      · simpa [step, handleTimeout, ht] using h

theorem attemptInv_foldl (evs : List Event) (s : AttemptState) (h : AttemptInv s) :
    AttemptInv (evs.foldl step s) := by
  induction evs generalizing s with
  | nil => exact h
  | cons e t ih => exact ih (step s e) (attemptInv_step s e h)

theorem attemptInv_run (i : Nat) (enc : Option String) (evs : List Event) :
    AttemptInv (runAttempt i enc evs) :=
  attemptInv_foldl evs (setup i enc) (attemptInv_setup i enc)

theorem reachable_attemptInv (s : AttemptState) (h : Reachable s) : AttemptInv s := by
  obtain ⟨i, enc, evs, rfl⟩ := h
  exact attemptInv_run i enc evs

theorem foldl_preserves_resources (evs : List Event) (s : AttemptState) :
    (evs.foldl step s).socketsOpened = s.socketsOpened ∧
    (evs.foldl step s).sendCount = s.sendCount := by
  induction evs generalizing s with
  | nil => exact ⟨rfl, rfl⟩
  | cons e t ih =>
      have h1 := step_preserves_resources s e
      have h2 := ih (step s e)
      exact ⟨h2.1.trans h1.1, h2.2.trans h1.2.1⟩

theorem settled_step_noop (s : AttemptState) (o : Settle)
    (hc : s.clientClosed = true) (ht : s.timerPending = false)
    (hs : s.settled = some o) :
    (∀ e, (step s e).settled = some o) ∧
    (∀ d, step s (.datagram d) = s) ∧
    (∀ m, step s (.socketError m) = s) ∧
    step s .timeoutFire = s := by
  refine ⟨?_, ?_, ?_, ?_⟩
  · intro e
    cases e with
    | socketError m => simp [step, handleSocketError, hc, hs]
    | datagram d => simp [step, handleMessage, hc, hs]
    | sendCallback err =>
        cases err with
        | none => simpa [step, handleSendCallback] using hs
        | some m =>
            simp [step, handleSendCallback, settleWith, closeSafely, clearTimeoutSafely, hc, hs]
    | timeoutFire => simp [step, handleTimeout, ht, hs]
  · intro d; simp [step, handleMessage, hc]
  · intro m; simp [step, handleSocketError, hc]
  · simp [step, handleTimeout, ht]

theorem closeSafely_comm_requestIdentifier (s : AttemptState) (r : Nat) :
    closeSafely { s with requestIdentifier := r } =
      { closeSafely s with requestIdentifier := r } := by
  unfold closeSafely
  by_cases hc : s.clientClosed = true <;> simp [hc]

theorem settleWith_comm_requestIdentifier (s : AttemptState) (r : Nat) (v : Settle) :
    settleWith { s with requestIdentifier := r } v =
      { settleWith s v with requestIdentifier := r } := by
  unfold settleWith
  by_cases hs : s.settled.isSome = true <;> simp [hs]

theorem clearTimeoutSafely_comm_requestIdentifier (s : AttemptState) (r : Nat) :
    clearTimeoutSafely { s with requestIdentifier := r } =
      { clearTimeoutSafely s with requestIdentifier := r } := rfl

theorem step_comm_requestIdentifier (s : AttemptState) (r : Nat) (e : Event) :
    step { s with requestIdentifier := r } e = { step s e with requestIdentifier := r } := by
  obtain ⟨rid, cc, tp, sp, so, sc, op, st⟩ := s
  cases e with
  | socketError m =>
      cases cc <;> cases st <;>
        simp [step, handleSocketError, clearTimeoutSafely, closeSafely, settleWith]
  | datagram d =>
      cases d with
      | ok resp =>
          cases cc <;> cases st <;>
            by_cases ha : resp.code = "Access-Accept" <;>
              simp [step, handleMessage, clearTimeoutSafely, closeSafely, settleWith, ha]
      | error m =>
          cases cc <;> cases st <;>
            simp [step, handleMessage, clearTimeoutSafely, closeSafely, settleWith]
  | sendCallback err =>
      cases err with
      | none => rfl
      | some m =>
          cases cc <;> cases st <;>
            simp [step, handleSendCallback, clearTimeoutSafely, closeSafely, settleWith]
  | timeoutFire =>
      cases tp <;> cases cc <;> cases st <;>
        simp [step, handleTimeout, clearTimeoutSafely, closeSafely, settleWith]

/-! ## The claims -/

/-- Claim C1, counterexample.  The spec claims a response datagram whose
RADIUS identifier differs from the outstanding request's identifier is
discarded and never produces an Accepted or Rejected outcome.  On the code
this is false: `server.js` never compares identifiers (`radius.decode`
receives only the packet and the secret, and the handler reads only
`response.code` and `response.attributes`).  Concretely, the attempt whose
Access-Request carried identifier 5 accepts a decodable Access-Accept
datagram carrying identifier 7 and resolves to the Accepted outcome. -/
theorem claim_C1_counterexample :
    (runAttempt 5 none [Event.datagram (Except.ok
        { code := "Access-Accept", identifier := 7,
          authenticator := List.replicate 16 0,
          attributes := [("Filter-Id", "StaffPolicy")] })]).requestIdentifier = 5 ∧
    (runAttempt 5 none [Event.datagram (Except.ok
        { code := "Access-Accept", identifier := 7,
          authenticator := List.replicate 16 0,
          attributes := [("Filter-Id", "StaffPolicy")] })]).settled =
      some (Settle.resolved true (some "StaffPolicy") none) ∧
    (5 : Nat) ≠ 7 :=
  ⟨rfl, rfl, by decide⟩

/-- Claim C1, amended: the decode step performs no identifier check at all.
The result of delivering a parsed response datagram to the attempt is
independent of the datagram's identifier byte, and the whole state machine
is independent of the identifier chosen for the outstanding Access-Request
(the `step` function commutes with overwriting `requestIdentifier`): any
decodable response datagram arriving on the attempt's socket is paired with
the attempt, whatever either identifier is. -/
theorem claim_C1_no_identifier_check (s : AttemptState) (d : LibDecoded)
    (i j r : Nat) (e : Event) :
    step s (.datagram (.ok { d with identifier := i })) =
      step s (.datagram (.ok { d with identifier := j })) ∧
    step { s with requestIdentifier := r } e = { step s e with requestIdentifier := r } :=
  ⟨rfl, step_comm_requestIdentifier s r e⟩

/-- Claim C2, counterexample.  The spec claims decoding recomputes the
response authenticator (a function of the response body, the original
request authenticator and the shared secret) and fails with
`AuthenticatorMismatch` whenever it differs from the 16-byte authenticator
field stored in the packet.  On the code this is false: the two Access-
Accept datagrams below are identical except for their stored authenticator
fields (all-zero bytes versus all-255 bytes), so whatever single value a
recomputation could produce, it differs from the stored field of at least
one of them (final conjunct); yet the attempt resolves both to the Accepted
outcome, never to a decode error. -/
theorem claim_C2_counterexample :
    (runAttempt 5 none [Event.datagram (Except.ok
        { code := "Access-Accept", identifier := 5,
          authenticator := List.replicate 16 0,
          attributes := [("Filter-Id", "StaffPolicy")] })]).settled =
      some (Settle.resolved true (some "StaffPolicy") none) ∧
    (runAttempt 5 none [Event.datagram (Except.ok
        { code := "Access-Accept", identifier := 5,
          authenticator := List.replicate 16 255,
          attributes := [("Filter-Id", "StaffPolicy")] })]).settled =
      some (Settle.resolved true (some "StaffPolicy") none) ∧
    List.replicate 16 (0 : Nat) ≠ List.replicate 16 255 ∧
    (∀ v : List Nat, v ≠ List.replicate 16 0 ∨ v ≠ List.replicate 16 255) := by
  refine ⟨rfl, rfl, by decide, ?_⟩
  intro v
  by_cases h : v = List.replicate 16 0
  · right
    rw [h]
    decide
  · exact Or.inl h

/-- Claim C2, amended: the code performs no response-authenticator
verification.  The result of delivering a parsed response datagram is
independent of the packet's 16-byte authenticator field (first conjunct;
`server.js` passes only the raw packet and the secret to `radius.decode`
and never retains the request authenticator, so no recomputation is
possible), and the only decode failures are the library's parse exceptions,
which reject the attempt's promise with the wrapped error message (second
conjunct). -/
theorem claim_C2_no_authenticator_check (s : AttemptState) (d : LibDecoded)
    (a b : List Nat) (m : String) :
    step s (.datagram (.ok { d with authenticator := a })) =
      step s (.datagram (.ok { d with authenticator := b })) ∧
    (s.clientClosed = false → s.settled = none →
      (step s (.datagram (.error m))).settled =
        some (.rejected ("Failed to process authentication response: " ++ m))) := by
  refine ⟨rfl, fun hc hs => ?_⟩
  simp [step, handleMessage, hc, hs]

/-- Claim C2, witness for the amended theorem at a concrete input. -/
theorem claim_C2_witness :
    (setup 1 none).clientClosed = false ∧ (setup 1 none).settled = none ∧
    (step (setup 1 none) (.datagram (.error "bad"))).settled =
      some (.rejected "Failed to process authentication response: bad") :=
  ⟨rfl, rfl,
    (claim_C2_no_authenticator_check (setup 1 none)
      { code := "", identifier := 0, authenticator := [], attributes := [] }
      [] [] "bad").2 rfl rfl⟩

/-- Claim C3: an attempt resolves at most once.  In every reachable state
whose promise has already settled to outcome `o`, delivering any further
event leaves the settlement at `o`; moreover a later datagram, socket
error or timer firing leaves the whole state untouched. -/
theorem claim_C3_resolve_at_most_once (s : AttemptState) (o : Settle)
    (hr : Reachable s) (hs : s.settled = some o) :
    (∀ e, (step s e).settled = some o) ∧
    (∀ d, step s (.datagram d) = s) ∧
    (∀ m, step s (.socketError m) = s) ∧
    step s .timeoutFire = s := by
  have hinv := reachable_attemptInv s hr
  have hsome : s.settled.isSome = true := by simp [hs]
  exact settled_step_noop s o (hinv.1 hsome) (hinv.2.1 hsome) hs

/-- Claim C3, witness: a concrete attempt that has processed an
Access-Reject response ignores a later timer firing. -/
theorem claim_C3_witness :
    (runAttempt 2 none [Event.datagram (Except.ok
        { code := "Access-Reject", identifier := 2,
          authenticator := List.replicate 16 0, attributes := [] })]).settled =
      some (Settle.resolved false none
        (some "Authentication failed. Please check your credentials.")) ∧
    step (runAttempt 2 none [Event.datagram (Except.ok
        { code := "Access-Reject", identifier := 2,
          authenticator := List.replicate 16 0, attributes := [] })]) .timeoutFire =
      runAttempt 2 none [Event.datagram (Except.ok
        { code := "Access-Reject", identifier := 2,
          authenticator := List.replicate 16 0, attributes := [] })] :=
  ⟨rfl,
    (claim_C3_resolve_at_most_once _ _
      ⟨2, none, [Event.datagram (Except.ok
        { code := "Access-Reject", identifier := 2,
          authenticator := List.replicate 16 0, attributes := [] })], rfl⟩
      rfl).2.2.2⟩

theorem jsOrString_ne_empty (x : Option String) (d : String) (hd : d ≠ "") :
    jsOrString x d ≠ "" := by
  unfold jsOrString
  cases x with
  | none => exact hd
  | some s => by_cases hs : s = "" <;> simp [hs, hd]

theorem allowedFilterId_ne_empty (env : Env) : (startupConfig env).allowedFilterId ≠ "" :=
  jsOrString_ne_empty env.ALLOWED_FILTER_ID "StaffPolicy" (by decide)

theorem radiusFilterId_of_lookup (attrs : List (String × String)) (v : String)
    (h : lookupLast attrs "Filter-Id" = some v) :
    radiusFilterId attrs = if v = "" then none else some v := by
  simp [radiusFilterId, h]

/-- Claim C4: Filter-Id authorization in the `POST /auth/radius` handler.
For an Accepted result whose attribute mapping carries `Filter-Id` equal to
the configured `ALLOWED_FILTER_ID`, the handler answers HTTP 200 with
`success = true`, the Filter-Id, and the grant message inside `validation`;
for an Accepted result whose `Filter-Id` has any other value it answers
HTTP 403 with `success = false` and the configured deny message.  (The
settlement `Settle.resolved true (radiusFilterId attrs) none` is exactly
what the message listener produces for an Access-Accept with attribute map
`attrs`.) -/
theorem claim_C4_filter_id_authorization (env reqEnv : Env)
    (attrs : List (String × String)) (v : String) :
    (lookupLast attrs "Filter-Id" = some (startupConfig env).allowedFilterId →
      facadeRespond (startupConfig env) reqEnv
          (.resolved true (radiusFilterId attrs) none) =
        { status := 200, success := true, message := "Authentication successful",
          filterId := some (some (startupConfig env).allowedFilterId),
          validation := some ("success",
            jsOrString reqEnv.ACCESS_GRANTED_MESSAGE "Access granted - Account verified") }) ∧
    (lookupLast attrs "Filter-Id" = some v → v ≠ (startupConfig env).allowedFilterId →
      facadeRespond (startupConfig env) reqEnv
          (.resolved true (radiusFilterId attrs) none) =
        { status := 403, success := false,
          message := (startupConfig env).accessDeniedMessage,
          filterId := some (radiusFilterId attrs),
          validation := some ("error",
            "Access denied - " ++ (startupConfig env).accessDeniedMessage) }) := by
  constructor
  · intro h
    rw [radiusFilterId_of_lookup attrs _ h, if_neg (allowedFilterId_ne_empty env)]
    simp [facadeRespond, jsStrictEqOptStr]
  · intro h hv
    rw [radiusFilterId_of_lookup attrs v h]
    by_cases he : v = "" <;> simp [he, facadeRespond, jsStrictEqOptStr, hv]

/-- Claim C4, witness: the allowed value `StaffPolicy` is granted (200) and
the value `GuestPolicy` is denied (403) under the default configuration. -/
theorem claim_C4_witness :
    facadeRespond (startupConfig {}) {}
        (.resolved true (radiusFilterId [("Filter-Id", "StaffPolicy")]) none) =
      { status := 200, success := true, message := "Authentication successful",
        filterId := some (some "StaffPolicy"),
        validation := some ("success", "Access granted - Account verified") } ∧
    facadeRespond (startupConfig {}) {}
        (.resolved true (radiusFilterId [("Filter-Id", "GuestPolicy")]) none) =
      { status := 403, success := false, message := "You don\x27t belong to this SSID",
        filterId := some (some "GuestPolicy"),
        validation := some ("error",
          "Access denied - You don\x27t belong to this SSID") } := by
  constructor
  · exact (claim_C4_filter_id_authorization {} {} [("Filter-Id", "StaffPolicy")] "StaffPolicy").1 rfl
  · exact (claim_C4_filter_id_authorization {} {} [("Filter-Id", "GuestPolicy")] "GuestPolicy").2
      rfl (by decide)

/-- Claim C5: an Accepted result whose attribute mapping has no `Filter-Id`
is denied, not errored.  The extraction yields `null`, the message listener
resolves the attempt with `success = true, filterId = null`, and the
handler answers HTTP 403 with `success = false` (in particular not a 500
server error): authentication succeeded but authorization did not. -/
theorem claim_C5_missing_filter_id_denied (cfg : Config) (reqEnv : Env)
    (attrs : List (String × String)) (s : AttemptState) (i : Nat) (a : List Nat)
    (hattr : lookupLast attrs "Filter-Id" = none)
    (hc : s.clientClosed = false) (hs : s.settled = none) :
    radiusFilterId attrs = none ∧
    (step s (.datagram (.ok
        { code := "Access-Accept", identifier := i,
          authenticator := a, attributes := attrs }))).settled =
      some (.resolved true none none) ∧
    (facadeRespond cfg reqEnv (.resolved true none none)).status = 403 ∧
    (facadeRespond cfg reqEnv (.resolved true none none)).success = false ∧
    (facadeRespond cfg reqEnv (.resolved true none none)).message = cfg.accessDeniedMessage ∧
    (facadeRespond cfg reqEnv (.resolved true none none)).status ≠ 500 := by
  have hf : radiusFilterId attrs = none := by simp [radiusFilterId, hattr]
  refine ⟨hf, ?_, ?_, ?_, ?_, ?_⟩
  · simp [step, handleMessage, hc, hs, hf]
  · simp [facadeRespond, jsStrictEqOptStr]
  · simp [facadeRespond, jsStrictEqOptStr]
  · simp [facadeRespond, jsStrictEqOptStr]
  · simp [facadeRespond, jsStrictEqOptStr]

/-- Claim C5, witness at a concrete fresh attempt and an Access-Accept
carrying no Filter-Id attribute. -/
theorem claim_C5_witness :
    lookupLast [("Reply-Message", "hi")] "Filter-Id" = none ∧
    (setup 4 none).clientClosed = false ∧ (setup 4 none).settled = none ∧
    (step (setup 4 none) (.datagram (.ok
        { code := "Access-Accept", identifier := 4,
          authenticator := List.replicate 16 0,
          attributes := [("Reply-Message", "hi")] }))).settled =
      some (.resolved true none none) ∧
    (facadeRespond (startupConfig {}) {} (.resolved true none none)).status = 403 :=
  ⟨rfl, rfl, rfl,
    (claim_C5_missing_filter_id_denied (startupConfig {}) {} [("Reply-Message", "hi")]
      (setup 4 none) 4 (List.replicate 16 0) rfl rfl rfl).2.1,
    (claim_C5_missing_filter_id_denied (startupConfig {}) {} [("Reply-Message", "hi")]
      (setup 4 none) 4 (List.replicate 16 0) rfl rfl rfl).2.2.1⟩

/-- Claim C6, counterexample.  The spec claims HTTP 401 uniformly for the
Rejected, TimedOut, TransportError and DecodeError outcomes.  On the code
this is false for DecodeError (and likewise TransportError): a decode
failure calls `reject`, the rejected promise is thrown by `await` into the
handler's catch block, and the handler answers HTTP 500
("Server error during authentication"), not 401. -/
theorem claim_C6_counterexample :
    (runAttempt 3 none [Event.datagram (Except.error "bad authenticator")]).settled =
      some (Settle.rejected "Failed to process authentication response: bad authenticator") ∧
    (facadeRespond (startupConfig {}) {}
        (Settle.rejected "Failed to process authentication response: bad authenticator")).status
      = 500 ∧
    (facadeRespond (startupConfig {}) {}
        (Settle.rejected "Failed to process authentication response: bad authenticator")).status
      ≠ 401 :=
  ⟨rfl, rfl, by decide⟩

/-- Claim C6, amended status mapping of the `POST /auth/radius` handler:
400 for missing credentials; 401 only for the resolved failures (Rejected
and TimedOut, which resolve `success = false`); 500 for the rejected
promise outcomes (DecodeError, TransportError, send failure, encode
failure, all of which `reject` and land in the catch block); and for an
Accepted outcome, 200 when the Filter-Id strictly equals the configured
value and 403 otherwise. -/
theorem claim_C6_status_mapping (cfg : Config) (reqEnv : Env) (body : ReqBody)
    (outcome : Settle) (m : String) (fid msg : Option String) :
    ((jsFalsyStr body.username || jsFalsyStr body.password) = true →
      handleAuthRadius cfg reqEnv body outcome =
        ({ status := 400, success := false,
           message := "Username and password are required" }, false)) ∧
    ((jsFalsyStr body.username || jsFalsyStr body.password) = false →
      handleAuthRadius cfg reqEnv body outcome = (facadeRespond cfg reqEnv outcome, true)) ∧
    (facadeRespond cfg reqEnv (.rejected m)).status = 500 ∧
    (facadeRespond cfg reqEnv (.resolved false fid msg)).status = 401 ∧
    (facadeRespond cfg reqEnv (.resolved true fid msg)).status =
      (if jsStrictEqOptStr fid cfg.allowedFilterId then 200 else 403) := by
  refine ⟨fun h => ?_, fun h => ?_, rfl, rfl, ?_⟩
  · simp [handleAuthRadius, h]
  · simp [handleAuthRadius, h]
  · by_cases hf : jsStrictEqOptStr fid cfg.allowedFilterId = true <;>
      simp [facadeRespond, hf]

/-- Claim C6, witness for the amended mapping at concrete inputs. -/
theorem claim_C6_witness :
    handleAuthRadius (startupConfig {}) {} { username := none, password := some "pw" }
        (Settle.resolved false none none) =
      ({ status := 400, success := false,
         message := "Username and password are required" }, false) ∧
    handleAuthRadius (startupConfig {}) {} { username := some "alice", password := some "pw" }
        (Settle.resolved false none (some "x")) =
      (facadeRespond (startupConfig {}) {} (Settle.resolved false none (some "x")), true) ∧
    (facadeRespond (startupConfig {}) {} (Settle.resolved true (some "StaffPolicy") none)).status
      = 200 :=
  ⟨(claim_C6_status_mapping (startupConfig {}) {} { username := none, password := some "pw" }
      (Settle.resolved false none none) "" none none).1 rfl,
   (claim_C6_status_mapping (startupConfig {}) {} { username := some "alice", password := some "pw" }
      (Settle.resolved false none (some "x")) "" none none).2.1 rfl,
   (claim_C6_status_mapping (startupConfig {}) {} { username := some "alice", password := some "pw" }
      (Settle.resolved true (some "StaffPolicy") none) "" (some "StaffPolicy") none).2.2.2.2⟩

/-- Claim C7: when no response has settled the attempt and the 10-second
timer (10000 ms, `RADIUS_TIMEOUT_MS`) fires, the attempt resolves to the
timed-out outcome (`success = false`, message "Authentication server timed
out"), the socket is closed, and the handler surfaces that outcome as
HTTP 401 carrying the message. -/
theorem claim_C7_timeout (cfg : Config) (reqEnv : Env) (s : AttemptState)
    (hr : Reachable s) (hs : s.settled = none) (ht : s.timerPending = true) :
    RADIUS_TIMEOUT_MS = 10000 ∧
    (step s .timeoutFire).settled =
      some (.resolved false none (some "Authentication server timed out")) ∧
    (step s .timeoutFire).clientClosed = true ∧
    (step s .timeoutFire).socketOpen = false ∧
    facadeRespond cfg reqEnv (.resolved false none (some "Authentication server timed out")) =
      { status := 401, success := false, message := "Authentication server timed out" } := by
  have hco := closed_and_open_eq_false s (reachable_attemptInv s hr)
  refine ⟨rfl, ?_, ?_, ?_, rfl⟩
  · simp [step, handleTimeout, ht, hs]
  · simp [step, handleTimeout, ht]
  · simp [step, handleTimeout, ht, hco]

/-- Claim C7, witness at the concrete fresh attempt. -/
theorem claim_C7_witness :
    (setup 0 none).settled = none ∧ (setup 0 none).timerPending = true ∧
    (step (setup 0 none) .timeoutFire).settled =
      some (.resolved false none (some "Authentication server timed out")) ∧
    (step (setup 0 none) .timeoutFire).socketOpen = false :=
  ⟨rfl, rfl,
    (claim_C7_timeout (startupConfig {}) {} (setup 0 none) ⟨0, none, [], rfl⟩ rfl rfl).2.1,
    (claim_C7_timeout (startupConfig {}) {} (setup 0 none) ⟨0, none, [], rfl⟩ rfl rfl).2.2.2.1⟩

/-- Claim C8, counterexample.  The spec claims every attempt performs
exactly one send.  On the code this is false on the encode-failure path:
when `radius.encode` throws, the catch block closes the socket and rejects
without ever calling `client.send`, so the attempt reaches a terminal state
with zero sends (the socket is still opened and closed exactly once). -/
theorem claim_C8_counterexample :
    (runAttempt 9 (some "boom") []).socketsOpened = 1 ∧
    (runAttempt 9 (some "boom") []).sendCount = 0 ∧
    (runAttempt 9 (some "boom") []).settled =
      some (Settle.rejected "Failed to create authentication request: boom") ∧
    (runAttempt 9 (some "boom") []).clientClosed = true ∧
    (runAttempt 9 (some "boom") []).socketOpen = false :=
  ⟨rfl, rfl, rfl, rfl, rfl⟩

/-- Claim C8, amended: every attempt opens exactly one UDP socket and
performs at most one send - exactly one whenever `radius.encode` succeeds,
and none on the encode-failure path - and on every terminal exit
(`settled` reached) the `clientClosed` flag is set and the socket is
closed. -/
theorem claim_C8_resources (i : Nat) (enc : Option String) (evs : List Event) :
    (runAttempt i enc evs).socketsOpened = 1 ∧
    (runAttempt i enc evs).sendCount ≤ 1 ∧
    (enc = none → (runAttempt i enc evs).sendCount = 1) ∧
    ((runAttempt i enc evs).settled.isSome = true →
      (runAttempt i enc evs).clientClosed = true ∧
      (runAttempt i enc evs).socketOpen = false) := by
  have hres := foldl_preserves_resources evs (setup i enc)
  have hinv := attemptInv_run i enc evs
  have hsoc : (setup i enc).socketsOpened = 1 := by cases enc <;> rfl
  have hsend : (setup i enc).sendCount = (if enc.isSome then 0 else 1) := by
    cases enc <;> rfl
  refine ⟨?_, ?_, ?_, ?_⟩
  · show (evs.foldl step (setup i enc)).socketsOpened = 1
    rw [hres.1, hsoc]
  · show (evs.foldl step (setup i enc)).sendCount ≤ 1
    rw [hres.2, hsend]
    cases enc <;> simp
  · intro h
    subst h
    show (evs.foldl step (setup i none)).sendCount = 1
    rw [hres.2, hsend]
    rfl
  · intro h
    exact ⟨hinv.1 h, hinv.2.2 (hinv.1 h)⟩

/-- Claim C8, witness: a normal attempt sends exactly once, and after the
timer fires the terminal state has the socket closed. -/
theorem claim_C8_witness :
    (runAttempt 0 none [Event.timeoutFire]).socketsOpened = 1 ∧
    (runAttempt 0 none [Event.timeoutFire]).sendCount = 1 ∧
    (runAttempt 0 none [Event.timeoutFire]).clientClosed = true ∧
    (runAttempt 0 none [Event.timeoutFire]).socketOpen = false :=
  ⟨(claim_C8_resources 0 none [Event.timeoutFire]).1,
   (claim_C8_resources 0 none [Event.timeoutFire]).2.2.1 rfl,
   ((claim_C8_resources 0 none [Event.timeoutFire]).2.2.2 rfl).1,
   ((claim_C8_resources 0 none [Event.timeoutFire]).2.2.2 rfl).2⟩

/-- Claim C9, counterexample.  The spec claims the entire configuration
(including the grant message) is read once at startup and never re-read
from the environment while handling an attempt.  On the code this is false:
`ACCESS_GRANTED_MESSAGE` is read from `process.env` inside the request
handler (server.js line 160), so two requests served under the same startup
configuration but different current environments yield different
responses. -/
theorem claim_C9_counterexample :
    handleAuthRadius (startupConfig {}) { ACCESS_GRANTED_MESSAGE := some "A" }
        { username := some "alice", password := some "pw" }
        (Settle.resolved true (some "StaffPolicy") none) ≠
      handleAuthRadius (startupConfig {}) { ACCESS_GRANTED_MESSAGE := some "B" }
        { username := some "alice", password := some "pw" }
        (Settle.resolved true (some "StaffPolicy") none) := by
  decide

/-- Claim C9, amended: the host, port (default 1812), secret, expected
Filter-Id (default "StaffPolicy") and deny message are computed once at
startup by `startupConfig` and the handler takes them only through that
immutable value, the timeout is the fixed constant 10000 ms, but the grant
message is re-read from the environment per request: the handler's output
depends on the request-time environment only through
`ACCESS_GRANTED_MESSAGE`. -/
theorem claim_C9_startup_config (env re1 re2 : Env) (cfg : Config)
    (body : ReqBody) (outcome : Settle) :
    startupConfig ({} : Env) =
      { host := "192.168.1.108", port := some 1812, secret := "testing123",
        allowedFilterId := "StaffPolicy",
        accessDeniedMessage := "You don\x27t belong to this SSID" } ∧
    (env.RADIUS_PORT = none → (startupConfig env).port = some 1812) ∧
    (env.ALLOWED_FILTER_ID = none → (startupConfig env).allowedFilterId = "StaffPolicy") ∧
    RADIUS_TIMEOUT_MS = 10000 ∧
    (re1.ACCESS_GRANTED_MESSAGE = re2.ACCESS_GRANTED_MESSAGE →
      handleAuthRadius cfg re1 body outcome = handleAuthRadius cfg re2 body outcome) := by
  refine ⟨by decide, ?_, ?_, rfl, ?_⟩
  · intro h
    simp [startupConfig, jsOrString, h]
    decide
  · intro h
    simp [startupConfig, jsOrString, h]
  · intro h
    simp only [handleAuthRadius, facadeRespond, h]

/-- Claim C9, witness for the amended theorem at concrete inputs. -/
theorem claim_C9_witness :
    ({ RADIUS_HOST := some "10.0.0.1" } : Env).RADIUS_PORT = none ∧
    (startupConfig { RADIUS_HOST := some "10.0.0.1" }).port = some 1812 ∧
    handleAuthRadius (startupConfig {}) { RADIUS_HOST := some "a" }
        { username := some "u", password := some "p" } (Settle.resolved false none none) =
      handleAuthRadius (startupConfig {}) { RADIUS_HOST := some "b" }
        { username := some "u", password := some "p" } (Settle.resolved false none none) :=
  ⟨rfl,
   (claim_C9_startup_config { RADIUS_HOST := some "10.0.0.1" } {} {} (startupConfig {})
      {} (Settle.resolved false none none)).2.1 rfl,
   (claim_C9_startup_config {} { RADIUS_HOST := some "a" } { RADIUS_HOST := some "b" }
      (startupConfig {}) { username := some "u", password := some "p" }
      (Settle.resolved false none none)).2.2.2.2 rfl⟩

/-- Claim C10: whenever username or password is absent or the empty string
(the JavaScript-falsy string values), the handler answers HTTP 400 with
`success = false` and the exact message "Username and password are
required", and `authenticateWithRadius` is never invoked (the second
component `false`): no socket is opened and no packet is sent. -/
theorem claim_C10_missing_credentials (cfg : Config) (reqEnv : Env)
    (body : ReqBody) (outcome : Settle)
    (h : (jsFalsyStr body.username || jsFalsyStr body.password) = true) :
    handleAuthRadius cfg reqEnv body outcome =
      ({ status := 400, success := false,
         message := "Username and password are required",
         filterId := none, validation := none }, false) := by
  simp [handleAuthRadius, h]

/-- Claim C10, witness: an empty-string password is falsy and yields the
400 response without starting a RADIUS exchange. -/
theorem claim_C10_witness :
    (jsFalsyStr (some "alice") || jsFalsyStr (some "")) = true ∧
    handleAuthRadius (startupConfig {}) {} { username := some "alice", password := some "" }
        (Settle.resolved true (some "StaffPolicy") none) =
      ({ status := 400, success := false,
         message := "Username and password are required",
         filterId := none, validation := none }, false) :=
  ⟨rfl,
   claim_C10_missing_credentials (startupConfig {}) {}
     { username := some "alice", password := some "" }
     (Settle.resolved true (some "StaffPolicy") none) rfl⟩

end RadiusSplash
